import Mathlib

/-!
# developerFolio analytics: tracking facade and lifecycle binder

Shallow embedding of `src/utils/analytics.js` and
`src/components/analytics/Analytics.js`.

Modelling conventions.

* The two provider globals are injected by third-party scripts, so the code has no
  control over what they are. A global is `absent` (falsy), a function that
  `returns` normally, a function that `throws`, or a truthy value that is
  `notCallable`. The facade tests a global for truthiness only and has no
  exception handler, so the last two make the calling statement raise.
* A call that reaches a provider function is recorded in a trace; nothing is read
  back. A call expression on a value that is not a function reaches no provider
  and raises a TypeError.
* The global object `window` may be undeclared (a non-browser context), and a
  declared `window` may lack `location`. Reading `window.location` while `window`
  is undeclared raises a ReferenceError; reading `window.location.pathname` while
  `location` is missing raises a TypeError.
* A facade operation yields an `Outcome`: the provider calls issued, in order,
  and the exception that escaped to the caller, if any.
* Optional JavaScript arguments are `Option` values, `none` meaning omitted.
* The lifecycle binder is modelled at the level of the facade calls it makes: its
  trace lists the facade operations invoked, each taken to return to the component.
-/

namespace Analytics

/-! ## Data model -/

/-- Primitive values carried by an event parameter bag. -/
inductive Prim where
  | str (s : String)
  | num (n : Int)
  | bool (b : Bool)
deriving DecidableEq, Repr

/-- An event parameter bag: an object literal, as an ordered list of fields. -/
abbrev Params := List (String × Prim)

/-- The settings record `ANALYTICS_CONFIG`. A string field may be absent. -/
structure Config where
  GA4_MEASUREMENT_ID : Option String
  PLAUSIBLE_DOMAIN : Option String
  ENABLED : Bool
deriving DecidableEq, Repr

/-- What a provider global (`window.gtag`, `window.plausible`) holds at call time. -/
inductive Global where
  | absent
  | returns
  | throws
  | notCallable
deriving DecidableEq, Repr

/-- The object `window.location`. -/
structure Location where
  pathname : String
  search : String
deriving DecidableEq, Repr

/-- The part of the browser global `window` that the facade reads: `window.gtag`,
`window.plausible` and `window.location`, the last possibly missing. -/
structure Window where
  gtag : Global
  plausibleFn : Global
  location : Option Location
deriving DecidableEq, Repr

/-- The execution context: `none` when `typeof window` is `"undefined"`. -/
abbrev Env := Option Window

/-- One call received by a provider function.
`gtag cmd target params` is `window.gtag(cmd, target, params)`;
`plausibleCall name props` is `window.plausible(name, options)` where `options`
is the object whose single field `props` holds `props`. -/
inductive Call where
  | gtag (command : String) (target : String) (params : Params)
  | plausibleCall (name : String) (props : Params)
deriving DecidableEq, Repr

/-- Exceptions that can escape from the embedded code. `ProviderError` stands for
whatever a provider function throws. -/
inductive JSError where
  | ReferenceError
  | TypeError
  | ProviderError
deriving DecidableEq, Repr

/-- Result of running a facade operation. -/
structure Outcome where
  calls : List Call
  threw : Option JSError
deriving DecidableEq, Repr

/-- Normal return after issuing `cs`. -/
def Outcome.ok (cs : List Call) : Outcome := ⟨cs, none⟩

/-- Sequencing of two statements: when the first raises, the second is not run. -/
def Outcome.andThen (first next : Outcome) : Outcome :=
  match first.threw with
  | some _ => first
  | none => ⟨first.calls ++ next.calls, next.threw⟩

/-- Is this a call to `window.gtag`? -/
def Call.isGtag : Call → Bool
  | .gtag _ _ _ => true
  | .plausibleCall _ _ => false

/-- Is this a call to `window.plausible`? -/
def Call.isPlausible : Call → Bool
  | .gtag _ _ _ => false
  | .plausibleCall _ _ => true

/-! ## JavaScript helpers -/

/-- JavaScript truthiness of an optional string: absent and empty are falsy. -/
def truthy : Option String → Bool
  | none => false
  | some s => s != ""

/-- The expression `a || d` for an optional string `a` and a string `d`. -/
def orElse (a : Option String) (d : String) : String :=
  match a with
  | none => d
  | some s => if s != "" then s else d

/-- The placeholder measurement identifier. -/
def PLACEHOLDER : String := "G-XXXXXXXXXX"

/-- JavaScript truthiness of a provider global. -/
def Global.truthy : Global → Bool
  | .absent => false
  | .returns => true
  | .throws => true
  | .notCallable => true

/-- Is the global a function, so that a call expression on it reaches a provider? -/
def Global.isFunction : Global → Bool
  | .absent => false
  | .returns => true
  | .throws => true
  | .notCallable => false

/-- The call expression `g(args)`, the arguments already evaluated to the call `c`. -/
def invoke (g : Global) (c : Call) : Outcome :=
  match g with
  | .returns => ⟨[c], none⟩
  | .throws => ⟨[c], some JSError.ProviderError⟩
  | .notCallable => ⟨[], some JSError.TypeError⟩
  | .absent => ⟨[], some JSError.TypeError⟩

/-- Value of the guard `typeof window !== "undefined" && window.gtag`: falsy when
`window` is undeclared, otherwise what `window.gtag` holds. -/
def windowGtag : Env → Global
  | none => Global.absent
  | some w => w.gtag

/-- Value of the guard `typeof window !== "undefined" && window.plausible`. -/
def windowPlausible : Env → Global
  | none => Global.absent
  | some w => w.plausibleFn

/-! ## Configuration resolver (analytics.js lines 7 to 18) -/

/-- The three `process.env` values read at module load; each is absent or a string. -/
structure ProcessEnv where
  REACT_APP_GA4_MEASUREMENT_ID : Option String
  REACT_APP_PLAUSIBLE_DOMAIN : Option String
  REACT_APP_ANALYTICS_ENABLED : Option String
deriving DecidableEq, Repr

/-- The object literal bound to `ANALYTICS_CONFIG`. -/
def ANALYTICS_CONFIG (pe : ProcessEnv) : Config :=
  { GA4_MEASUREMENT_ID := some (orElse pe.REACT_APP_GA4_MEASUREMENT_ID PLACEHOLDER)
    PLAUSIBLE_DOMAIN := some (orElse pe.REACT_APP_PLAUSIBLE_DOMAIN "")
    ENABLED := pe.REACT_APP_ANALYTICS_ENABLED != some "false" }

/-! ## Tracking facade (analytics.js lines 23 to 102) -/

/-- The guard `ID && ID !== PLACEHOLDER` on the measurement identifier. -/
def ga4Configured (cfg : Config) : Bool :=
  truthy cfg.GA4_MEASUREMENT_ID && cfg.GA4_MEASUREMENT_ID != some PLACEHOLDER

/-- Source function `initGA4`. The argument `window.location.pathname` is evaluated
after the guard on `window.gtag` and before the call. -/
def initGA4 (cfg : Config) (env : Env) : Outcome :=
  if !cfg.ENABLED || !truthy cfg.GA4_MEASUREMENT_ID
      || cfg.GA4_MEASUREMENT_ID == some PLACEHOLDER then
    Outcome.ok []
  else
    match env with
    | some w =>
      if w.gtag.truthy then
        match w.location with
        | some loc =>
          invoke w.gtag (Call.gtag "config" (cfg.GA4_MEASUREMENT_ID.getD "")
            [("page_path", Prim.str loc.pathname)])
        | none => ⟨[], some JSError.TypeError⟩
      else Outcome.ok []
    | none => Outcome.ok []

/-- Source function `trackPageView`: the Google Analytics block, then the Plausible
block, which is not reached when the first one raises. -/
def trackPageView (cfg : Config) (env : Env) (path : String) : Outcome :=
  if !cfg.ENABLED then Outcome.ok []
  else
    let ga : Outcome :=
      if ga4Configured cfg then
        if (windowGtag env).truthy then
          invoke (windowGtag env)
            (Call.gtag "config" (cfg.GA4_MEASUREMENT_ID.getD "")
              [("page_path", Prim.str path)])
        else Outcome.ok []
      else Outcome.ok []
    let pl : Outcome :=
      if truthy cfg.PLAUSIBLE_DOMAIN && (windowPlausible env).truthy then
        invoke (windowPlausible env)
          (Call.plausibleCall "pageview" [("path", Prim.str path)])
      else Outcome.ok []
    ga.andThen pl

/-- Source function `trackEvent`; `eventParams` defaults to the empty object. -/
def trackEvent (cfg : Config) (env : Env) (eventName : String)
    (eventParams : Option Params) : Outcome :=
  let ps : Params := eventParams.getD []
  if !cfg.ENABLED then Outcome.ok []
  else
    let ga : Outcome :=
      if ga4Configured cfg then
        if (windowGtag env).truthy then
          invoke (windowGtag env) (Call.gtag "event" eventName ps)
        else Outcome.ok []
      else Outcome.ok []
    let pl : Outcome :=
      if truthy cfg.PLAUSIBLE_DOMAIN && (windowPlausible env).truthy then
        invoke (windowPlausible env) (Call.plausibleCall eventName ps)
      else Outcome.ok []
    ga.andThen pl

/-- Source function `trackButtonClick`; `location` defaults to the empty string.
The argument object is built before `trackEvent` is entered, so the operand
`window.location.pathname` is evaluated, when `location` is falsy, whatever the
settings are. -/
def trackButtonClick (cfg : Config) (env : Env) (buttonName : String)
    (location : Option String) : Outcome :=
  let loc : String := location.getD ""
  if loc != "" then
    trackEvent cfg env "button_click"
      (some [("button_name", Prim.str buttonName), ("location", Prim.str loc)])
  else
    match env with
    | none => ⟨[], some JSError.ReferenceError⟩
    | some w =>
      match w.location with
      | none => ⟨[], some JSError.TypeError⟩
      | some l =>
        trackEvent cfg env "button_click"
          (some [("button_name", Prim.str buttonName), ("location", Prim.str l.pathname)])

/-- Source function `trackDownload`. -/
def trackDownload (cfg : Config) (env : Env) (fileName : String) : Outcome :=
  trackEvent cfg env "file_download" (some [("file_name", Prim.str fileName)])

/-- Source function `trackExternalLink`. -/
def trackExternalLink (cfg : Config) (env : Env) (url : String) : Outcome :=
  trackEvent cfg env "external_link_click" (some [("link_url", Prim.str url)])

/-- A facade operation together with its arguments. -/
inductive Op where
  | initGA4
  | trackPageView (path : String)
  | trackEvent (eventName : String) (eventParams : Option Params)
  | trackButtonClick (buttonName : String) (location : Option String)
  | trackDownload (fileName : String)
  | trackExternalLink (url : String)
deriving DecidableEq, Repr

/-- Run one facade operation. -/
def Op.run (cfg : Config) (env : Env) : Op → Outcome
  | .initGA4 => Analytics.initGA4 cfg env
  | .trackPageView p => Analytics.trackPageView cfg env p
  | .trackEvent n ps => Analytics.trackEvent cfg env n ps
  | .trackButtonClick b l => Analytics.trackButtonClick cfg env b l
  | .trackDownload f => Analytics.trackDownload cfg env f
  | .trackExternalLink u => Analytics.trackExternalLink cfg env u

/-! ## Lifecycle binder (Analytics.js lines 8 to 31) -/

/-- Snapshot of the browser at the moment a lifecycle event is delivered:
`window.location.pathname`, `window.location.search`, `document.visibilityState`. -/
structure Page where
  pathname : String
  search : String
  visibilityState : String
deriving DecidableEq, Repr

/-- The closures that the component registers on `document`. -/
inductive Listener where
  | handleVisibilityChange
deriving DecidableEq, Repr

/-- The `visibilitychange` listener list of `document`. -/
structure Document where
  listeners : List Listener
deriving DecidableEq, Repr

/-- DOM `addEventListener`: a callback already registered is not added twice. -/
def addEventListener (d : Document) (l : Listener) : Document :=
  if l ∈ d.listeners then d else ⟨d.listeners ++ [l]⟩

/-- DOM `removeEventListener`. -/
def removeEventListener (d : Document) (l : Listener) : Document :=
  ⟨d.listeners.erase l⟩

/-- Body of the closure `handleVisibilityChange`: the facade calls it makes. -/
def handleVisibilityChange (pg : Page) : List Op :=
  if pg.visibilityState == "visible" then [Op.trackPageView pg.pathname] else []

/-- Invoke a registered listener. -/
def Listener.invoke (pg : Page) : Listener → List Op
  | .handleVisibilityChange => Analytics.handleVisibilityChange pg

/-- The effect callback passed to `useEffect`: it runs once, on mount. -/
def effect (d : Document) (pg : Page) : Document × List Op :=
  (addEventListener d Listener.handleVisibilityChange,
   [Op.initGA4, Op.trackPageView (pg.pathname ++ pg.search)])

/-- The cleanup function returned by the effect: it runs on unmount. -/
def cleanup (d : Document) : Document :=
  removeEventListener d Listener.handleVisibilityChange

/-- Events delivered to the component and to `document`. -/
inductive LifecycleEvent where
  | mount (pg : Page)
  | visibilitychange (pg : Page)
  | unmount
deriving DecidableEq, Repr

/-- One step: the new listener list and the facade calls made. -/
def step (d : Document) : LifecycleEvent → Document × List Op
  | .mount pg => effect d pg
  | .visibilitychange pg => (d, d.listeners.flatMap (Listener.invoke pg))
  | .unmount => (cleanup d, [])

/-- Run a trace of events, collecting the facade calls in order. -/
def runTrace (d : Document) : List LifecycleEvent → List Op
  | [] => []
  | e :: es => (step d e).2 ++ runTrace (step d e).1 es

/-- The document before the component is mounted: no listener of the component. -/
def Document.fresh : Document := ⟨[]⟩

/-- The trace shape: one mount, notifications, unmount, further notifications. -/
def lifecycle (pg0 : Page) (during after : List Page) : List LifecycleEvent :=
  LifecycleEvent.mount pg0 :: during.map LifecycleEvent.visibilitychange
    ++ LifecycleEvent.unmount :: after.map LifecycleEvent.visibilitychange

/-! ## Specification vocabulary -/

/-- The measurement identifier is configured: present, non-empty, not the placeholder. -/
def PrimaryConfigured (cfg : Config) : Prop :=
  match cfg.GA4_MEASUREMENT_ID with
  | none => False
  | some id => id ≠ "" ∧ id ≠ "G-XXXXXXXXXX"

/-- The secondary domain is configured: present and non-empty. -/
def SecondaryConfigured (cfg : Config) : Prop :=
  match cfg.PLAUSIBLE_DOMAIN with
  | none => False
  | some d => d ≠ ""

instance (cfg : Config) : Decidable (PrimaryConfigured cfg) := by
  unfold PrimaryConfigured; split <;> infer_instance

instance (cfg : Config) : Decidable (SecondaryConfigured cfg) := by
  unfold SecondaryConfigured; split <;> infer_instance

/-- The statement that calls the primary provider raises: the identifier is
configured and `window.gtag` is truthy but is not a function that returns normally. -/
def PrimaryFails (cfg : Config) (env : Env) : Prop :=
  PrimaryConfigured cfg ∧ (windowGtag env).truthy = true ∧ windowGtag env ≠ Global.returns

/-- The statement that calls the secondary provider raises, when it is reached. -/
def SecondaryFails (cfg : Config) (env : Env) : Prop :=
  SecondaryConfigured cfg ∧ (windowPlausible env).truthy = true
    ∧ windowPlausible env ≠ Global.returns

instance (cfg : Config) (env : Env) : Decidable (PrimaryFails cfg env) := by
  unfold PrimaryFails; infer_instance

instance (cfg : Config) (env : Env) : Decidable (SecondaryFails cfg env) := by
  unfold SecondaryFails; infer_instance

/-- A global is well behaved when it is absent or a function that returns normally. -/
def Global.wellBehaved : Global → Bool
  | .absent => true
  | .returns => true
  | .throws => false
  | .notCallable => false

/-- The primary block of `trackPageView` and `trackEvent`, on the call `c`. -/
def gtagStep (cfg : Config) (env : Env) (c : Call) : Outcome :=
  if PrimaryConfigured cfg ∧ (windowGtag env).truthy = true then invoke (windowGtag env) c
  else Outcome.ok []

/-- The secondary block of `trackPageView` and `trackEvent`, on the call `c`. -/
def plausibleStep (cfg : Config) (env : Env) (c : Call) : Outcome :=
  if SecondaryConfigured cfg ∧ (windowPlausible env).truthy = true then
    invoke (windowPlausible env) c
  else Outcome.ok []

/-- The calls that a two-block operation issues, `g` to the primary provider and then
`p` to the secondary one: `g` when the identifier is configured and `window.gtag` is a
function; then `p` when the primary statement did not raise, the domain is configured
and `window.plausible` is a function. -/
def emitted (cfg : Config) (env : Env) (g p : Call) : List Call :=
  (if PrimaryConfigured cfg ∧ (windowGtag env).isFunction = true then [g] else [])
    ++ (if ¬ PrimaryFails cfg env ∧ SecondaryConfigured cfg
          ∧ (windowPlausible env).isFunction = true then [p] else [])

/-- The calls that the specification text promises for a two-block operation: each
provider gets its call exactly when it is configured and its global is present,
independently of the other. -/
def promised (cfg : Config) (env : Env) (g p : Call) : List Call :=
  (if PrimaryConfigured cfg ∧ (windowGtag env).truthy = true then [g] else [])
    ++ (if SecondaryConfigured cfg ∧ (windowPlausible env).truthy = true then [p] else [])

/-- A call is gated when the provider it goes to is configured and is a function. -/
abbrev Gated (cfg : Config) (env : Env) (c : Call) : Prop :=
  (c.isGtag = true → PrimaryConfigured cfg ∧ (windowGtag env).isFunction = true) ∧
  (c.isPlausible = true → SecondaryConfigured cfg ∧ (windowPlausible env).isFunction = true)

/-- Sample settings: enabled, identifier G-ABC123, no secondary domain. -/
def sampleConfig : Config := ⟨some "G-ABC123", some "", true⟩

/-- Sample settings with both providers configured. -/
def bothConfig : Config := ⟨some "G-ABC123", some "example.com", true⟩

/-- Sample settings with tracking disabled and both providers configured. -/
def disabledConfig : Config := ⟨some "G-ABC123", some "example.com", false⟩

/-- Sample call: the download event for the file cv.pdf sent to the primary provider. -/
def downloadCall : Call := Call.gtag "event" "file_download" [("file_name", Prim.str "cv.pdf")]

/-- Sample browser: both globals are functions that return, document path /home. -/
def homeWindow : Window := ⟨Global.returns, Global.returns, some ⟨"/home", ""⟩⟩

/-- Sample browser: both globals are functions that return, document path /pricing. -/
def pricingWindow : Window := ⟨Global.returns, Global.returns, some ⟨"/pricing", "?plan=pro"⟩⟩

/-- Sample browser in which `window.gtag` is a function that throws. -/
def throwingWindow : Window := ⟨Global.throws, Global.returns, some ⟨"/home", ""⟩⟩

/-! ## Bridging lemmas -/

theorem ga4Configured_iff (cfg : Config) :
    ga4Configured cfg = true ↔ PrimaryConfigured cfg := by
  rcases cfg with ⟨_ | id, d, e⟩ <;>
    simp [ga4Configured, PrimaryConfigured, truthy, PLACEHOLDER]

theorem truthy_domain_iff (cfg : Config) :
    truthy cfg.PLAUSIBLE_DOMAIN = true ↔ SecondaryConfigured cfg := by
  rcases cfg with ⟨id, _ | d, e⟩ <;> simp [SecondaryConfigured, truthy]

theorem primaryConfigured_iff (cfg : Config) :
    PrimaryConfigured cfg ↔
      ∃ id, cfg.GA4_MEASUREMENT_ID = some id ∧ id ≠ "" ∧ id ≠ "G-XXXXXXXXXX" := by
  rcases cfg with ⟨_ | id, d, e⟩ <;> simp [PrimaryConfigured]

theorem secondaryConfigured_iff (cfg : Config) :
    SecondaryConfigured cfg ↔ ∃ d, cfg.PLAUSIBLE_DOMAIN = some d ∧ d ≠ "" := by
  rcases cfg with ⟨id, _ | d, e⟩ <;> simp [SecondaryConfigured]

theorem windowGtag_isFunction_iff (env : Env) :
    (windowGtag env).isFunction = true ↔ ∃ w, env = some w ∧ w.gtag.isFunction = true := by
  rcases env with _ | w <;> simp [windowGtag, Global.isFunction]

theorem windowPlausible_isFunction_iff (env : Env) :
    (windowPlausible env).isFunction = true
      ↔ ∃ w, env = some w ∧ w.plausibleFn.isFunction = true := by
  rcases env with _ | w <;> simp [windowPlausible, Global.isFunction]

theorem truthy_of_isFunction {g : Global} (h : g.isFunction = true) : g.truthy = true := by
  cases g <;> simp_all [Global.isFunction, Global.truthy]

theorem gtagStep_eq (cfg : Config) (env : Env) (c : Call) :
    (if ga4Configured cfg = true then
        (if (windowGtag env).truthy = true then invoke (windowGtag env) c else Outcome.ok [])
      else Outcome.ok [])
      = gtagStep cfg env c := by
  unfold gtagStep
  by_cases h : ga4Configured cfg = true
  · have h2 := (ga4Configured_iff cfg).1 h
    by_cases g : (windowGtag env).truthy = true <;> simp [h, h2, g]
  · have h2 : ¬ PrimaryConfigured cfg := fun k => h ((ga4Configured_iff cfg).2 k)
    simp [h, h2]

theorem plausibleStep_eq (cfg : Config) (env : Env) (c : Call) :
    (if (truthy cfg.PLAUSIBLE_DOMAIN && (windowPlausible env).truthy) = true then
        invoke (windowPlausible env) c
      else Outcome.ok [])
      = plausibleStep cfg env c := by
  unfold plausibleStep
  by_cases h : truthy cfg.PLAUSIBLE_DOMAIN = true
  · have h2 := (truthy_domain_iff cfg).1 h
    by_cases g : (windowPlausible env).truthy = true <;> simp [h, h2, g]
  · have h2 : ¬ SecondaryConfigured cfg := fun k => h ((truthy_domain_iff cfg).2 k)
    simp [h, h2]

/-- Outcome of `trackPageView` as the sequence of its two blocks. -/
theorem trackPageView_eq (cfg : Config) (env : Env) (path : String) :
    trackPageView cfg env path =
      if cfg.ENABLED = true then
        (gtagStep cfg env
            (Call.gtag "config" (cfg.GA4_MEASUREMENT_ID.getD "") [("page_path", Prim.str path)])).andThen
          (plausibleStep cfg env (Call.plausibleCall "pageview" [("path", Prim.str path)]))
      else Outcome.ok [] := by
  unfold trackPageView
  cases hE : cfg.ENABLED
  · simp
  · simp only [Bool.not_true, Bool.false_eq_true, if_false, if_true]
    rw [gtagStep_eq, plausibleStep_eq]

/-- Outcome of `trackEvent` as the sequence of its two blocks. -/
theorem trackEvent_eq (cfg : Config) (env : Env) (n : String) (ps : Option Params) :
    trackEvent cfg env n ps =
      if cfg.ENABLED = true then
        (gtagStep cfg env (Call.gtag "event" n (ps.getD []))).andThen
          (plausibleStep cfg env (Call.plausibleCall n (ps.getD [])))
      else Outcome.ok [] := by
  unfold trackEvent
  cases hE : cfg.ENABLED
  · simp
  · simp only [Bool.not_true, Bool.false_eq_true, if_false, if_true]
    rw [gtagStep_eq, plausibleStep_eq]

theorem invoke_calls (g : Global) (c : Call) :
    (invoke g c).calls = if g.isFunction = true then [c] else [] := by
  cases g <;> rfl

theorem invoke_threw_none_iff (g : Global) (c : Call) :
    (invoke g c).threw = none ↔ g = Global.returns := by
  cases g <;> simp [invoke]

theorem gtagStep_calls (cfg : Config) (env : Env) (c : Call) :
    (gtagStep cfg env c).calls =
      if PrimaryConfigured cfg ∧ (windowGtag env).isFunction = true then [c] else [] := by
  unfold gtagStep
  by_cases h : PrimaryConfigured cfg
  · generalize windowGtag env = g
    cases g <;> simp [h, Global.truthy, Global.isFunction, invoke, Outcome.ok]
  · simp [h, Outcome.ok]

theorem plausibleStep_calls (cfg : Config) (env : Env) (c : Call) :
    (plausibleStep cfg env c).calls =
      if SecondaryConfigured cfg ∧ (windowPlausible env).isFunction = true then [c] else [] := by
  unfold plausibleStep
  by_cases h : SecondaryConfigured cfg
  · generalize windowPlausible env = g
    cases g <;> simp [h, Global.truthy, Global.isFunction, invoke, Outcome.ok]
  · simp [h, Outcome.ok]

theorem gtagStep_threw (cfg : Config) (env : Env) (c : Call) :
    (gtagStep cfg env c).threw = none ↔ ¬ PrimaryFails cfg env := by
  unfold gtagStep PrimaryFails
  by_cases h : PrimaryConfigured cfg
  · generalize windowGtag env = g
    cases g <;> simp [h, Global.truthy, invoke, Outcome.ok]
  · simp [h, Outcome.ok]

theorem plausibleStep_threw (cfg : Config) (env : Env) (c : Call) :
    (plausibleStep cfg env c).threw = none ↔ ¬ SecondaryFails cfg env := by
  unfold plausibleStep SecondaryFails
  by_cases h : SecondaryConfigured cfg
  · generalize windowPlausible env = g
    cases g <;> simp [h, Global.truthy, invoke, Outcome.ok]
  · simp [h, Outcome.ok]

theorem andThen_calls (a b : Outcome) :
    (a.andThen b).calls = a.calls ++ (if a.threw = none then b.calls else []) := by
  rcases a with ⟨ca, _ | e⟩ <;> simp [Outcome.andThen]

theorem andThen_threw_none_iff (a b : Outcome) :
    (a.andThen b).threw = none ↔ a.threw = none ∧ b.threw = none := by
  rcases a with ⟨ca, _ | e⟩ <;> simp [Outcome.andThen]

/-- The calls of the two blocks in sequence are the `emitted` calls. -/
theorem steps_calls (cfg : Config) (env : Env) (g p : Call) :
    ((gtagStep cfg env g).andThen (plausibleStep cfg env p)).calls = emitted cfg env g p := by
  rw [andThen_calls, gtagStep_calls, plausibleStep_calls]
  unfold emitted
  congr 1
  by_cases h : PrimaryFails cfg env
  · have : ¬ ((gtagStep cfg env g).threw = none) := fun k => (gtagStep_threw cfg env g).1 k h
    simp [h, this]
  · have : (gtagStep cfg env g).threw = none := (gtagStep_threw cfg env g).2 h
    simp [h, this]

/-- The two blocks in sequence return normally exactly when neither statement raises. -/
theorem steps_threw (cfg : Config) (env : Env) (g p : Call) :
    ((gtagStep cfg env g).andThen (plausibleStep cfg env p)).threw = none
      ↔ ¬ PrimaryFails cfg env ∧ ¬ SecondaryFails cfg env := by
  rw [andThen_threw_none_iff, gtagStep_threw, plausibleStep_threw]

/-- Outcome of `initGA4` past its guards. -/
theorem initGA4_eq (cfg : Config) (env : Env) :
    initGA4 cfg env =
      if cfg.ENABLED = true ∧ PrimaryConfigured cfg ∧ (windowGtag env).truthy = true then
        match env.bind Window.location with
        | some loc =>
          invoke (windowGtag env) (Call.gtag "config" (cfg.GA4_MEASUREMENT_ID.getD "")
            [("page_path", Prim.str loc.pathname)])
        | none => ⟨[], some JSError.TypeError⟩
      else Outcome.ok [] := by
  have hc := ga4Configured_iff cfg
  rcases cfg with ⟨i, d, e⟩
  by_cases hP : PrimaryConfigured ⟨i, d, e⟩
  · have h1 := hc.2 hP
    simp only [ga4Configured, Bool.and_eq_true, bne_iff_ne, ne_eq] at h1
    rcases e with _ | _
    · simp [initGA4]
    · rcases env with _ | ⟨g, pl, _ | loc⟩
      · simp [initGA4, windowGtag, Global.truthy, Outcome.ok]
      · cases g <;> simp [initGA4, windowGtag, Global.truthy, Outcome.ok, hP, h1]
      · cases g <;> simp [initGA4, windowGtag, Global.truthy, Outcome.ok, hP, h1]
  · have h1 : ¬ (ga4Configured ⟨i, d, e⟩ = true) := fun k => hP (hc.1 k)
    simp only [ga4Configured, Bool.and_eq_true, bne_iff_ne, ne_eq, not_and, not_not] at h1
    simp only [hP, false_and, and_false, if_false]
    unfold initGA4
    by_cases ht : truthy i = true
    · have := h1 ht
      simp [this]
    · simp [ht]

/-- Outcome of `trackButtonClick`: either an exception raised while building the
argument object, with no call issued, or the outcome of `trackEvent`. -/
theorem trackButtonClick_cases (cfg : Config) (env : Env) (b : String) (l : Option String) :
    (∃ e, trackButtonClick cfg env b l = ⟨[], some e⟩)
      ∨ ∃ ps, trackButtonClick cfg env b l = trackEvent cfg env "button_click" (some ps) := by
  unfold trackButtonClick
  by_cases h : (l.getD "" != "") = true
  · right
    exact ⟨[("button_name", Prim.str b), ("location", Prim.str (l.getD ""))],
      by simp only [h, if_true]⟩
  · rcases env with _ | ⟨g, pl, _ | loc⟩
    · left; exact ⟨JSError.ReferenceError, by simp only [h]; rfl⟩
    · left; exact ⟨JSError.TypeError, by simp only [h]; rfl⟩
    · right
      exact ⟨[("button_name", Prim.str b), ("location", Prim.str loc.pathname)],
        by simp only [h]; rfl⟩

theorem gated_of_mem_emitted (cfg : Config) (env : Env) (a b n : String) (ps qs : Params)
    (c : Call)
    (hc : c ∈ emitted cfg env (Call.gtag a b ps) (Call.plausibleCall n qs)) :
    Gated cfg env c := by
  unfold emitted at hc
  rcases List.mem_append.1 hc with h | h
  · split at h
    · rename_i k
      have : c = Call.gtag a b ps := by simpa using h
      subst this
      exact ⟨fun _ => k, fun k2 => by simp [Call.isPlausible] at k2⟩
    · simp at h
  · split at h
    · rename_i k
      have : c = Call.plausibleCall n qs := by simpa using h
      subst this
      exact ⟨fun k2 => (by simp [Call.isGtag] at k2), fun _ => k.2⟩
    · simp at h

theorem gated_of_mem_trackEvent (cfg : Config) (env : Env) (n : String) (ps : Option Params)
    (c : Call) (h : c ∈ (trackEvent cfg env n ps).calls) :
    cfg.ENABLED = true ∧ Gated cfg env c := by
  rw [trackEvent_eq] at h
  by_cases hE : cfg.ENABLED = true
  · rw [if_pos hE, steps_calls] at h
    exact ⟨hE, gated_of_mem_emitted cfg env _ _ _ _ _ c h⟩
  · simp [hE, Outcome.ok] at h

/-- Every call issued by a facade operation is gated, and tracking is enabled. -/
theorem mem_calls_gated (cfg : Config) (env : Env) (op : Op) (c : Call)
    (h : c ∈ (op.run cfg env).calls) : cfg.ENABLED = true ∧ Gated cfg env c := by
  cases op with
  | initGA4 =>
    simp only [Op.run] at h
    rw [initGA4_eq] at h
    split at h
    · rename_i k
      split at h
      · rw [invoke_calls] at h
        split at h
        · rename_i f
          rw [List.mem_singleton] at h
          subst h
          exact ⟨k.1, fun _ => ⟨k.2.1, f⟩, fun k2 => by simp [Call.isPlausible] at k2⟩
        · simp at h
      · simp at h
    · simp [Outcome.ok] at h
  | trackPageView path =>
    simp only [Op.run] at h
    rw [trackPageView_eq] at h
    by_cases hE : cfg.ENABLED = true
    · rw [if_pos hE, steps_calls] at h
      exact ⟨hE, gated_of_mem_emitted cfg env _ _ _ _ _ c h⟩
    · simp [hE, Outcome.ok] at h
  | trackEvent n ps => exact gated_of_mem_trackEvent cfg env n ps c h
  | trackButtonClick b l =>
    rcases trackButtonClick_cases cfg env b l with ⟨e, he⟩ | ⟨ps, e⟩
    · simp [Op.run, he] at h
    · simp only [Op.run, e] at h
      exact gated_of_mem_trackEvent cfg env _ _ c h
  | trackDownload f => exact gated_of_mem_trackEvent cfg env _ _ c h
  | trackExternalLink u => exact gated_of_mem_trackEvent cfg env _ _ c h

theorem filter_isGtag_emitted (cfg : Config) (env : Env) (a b n : String) (ps qs : Params) :
    (emitted cfg env (Call.gtag a b ps) (Call.plausibleCall n qs)).filter Call.isGtag
      = if PrimaryConfigured cfg ∧ (windowGtag env).isFunction = true
          then [Call.gtag a b ps] else [] := by
  unfold emitted
  split <;> split <;> simp [Call.isGtag]

theorem filter_isPlausible_emitted (cfg : Config) (env : Env) (a b n : String)
    (ps qs : Params) :
    (emitted cfg env (Call.gtag a b ps) (Call.plausibleCall n qs)).filter Call.isPlausible
      = if ¬ PrimaryFails cfg env ∧ SecondaryConfigured cfg
            ∧ (windowPlausible env).isFunction = true
          then [Call.plausibleCall n qs] else [] := by
  unfold emitted
  split <;> split <;> simp [Call.isPlausible]

/-- With well behaved globals the emitted calls are the promised ones. -/
theorem emitted_eq_promised (cfg : Config) (env : Env) (g p : Call)
    (hg : (windowGtag env).wellBehaved = true) (hp : (windowPlausible env).wellBehaved = true) :
    emitted cfg env g p = promised cfg env g p ∧ ¬ PrimaryFails cfg env
      ∧ ¬ SecondaryFails cfg env := by
  have key : ∀ x : Global, x.wellBehaved = true →
      x.isFunction = x.truthy ∧ (x.truthy = true → x = Global.returns) := by
    intro x hx
    cases x <;> simp_all [Global.wellBehaved, Global.truthy, Global.isFunction]
  have nf : ¬ PrimaryFails cfg env := fun k => k.2.2 ((key _ hg).2 k.2.1)
  have ns : ¬ SecondaryFails cfg env := fun k => k.2.2 ((key _ hp).2 k.2.1)
  refine ⟨?_, nf, ns⟩
  unfold emitted promised
  simp only [nf, not_false_eq_true, true_and, (key _ hg).1, (key _ hp).1]

theorem runTrace_cons (d : Document) (e : LifecycleEvent) (es : List LifecycleEvent) :
    runTrace d (e :: es) = (step d e).2 ++ runTrace (step d e).1 es := rfl

/-- While the listener is registered, each notification with visibility state
"visible" contributes one page view of the bare path. -/
theorem runTrace_bound (during : List Page) (rest : List LifecycleEvent) :
    runTrace ⟨[Listener.handleVisibilityChange]⟩
        (during.map LifecycleEvent.visibilitychange ++ rest)
      = (during.filter fun pg => pg.visibilityState == "visible").map
            (fun pg => Op.trackPageView pg.pathname)
          ++ runTrace ⟨[Listener.handleVisibilityChange]⟩ rest := by
  induction during with
  | nil => rfl
  | cons pg tl ih =>
    simp only [List.map_cons, List.cons_append, runTrace, step, ih]
    by_cases h : (pg.visibilityState == "visible") = true
    · simp [List.flatMap, Listener.invoke, handleVisibilityChange, h, ih]
    · simp [List.flatMap, Listener.invoke, handleVisibilityChange, h, ih]

/-- With no listener registered, notifications cause no facade call. -/
theorem runTrace_unbound (after : List Page) :
    runTrace ⟨[]⟩ (after.map LifecycleEvent.visibilitychange) = [] := by
  induction after with
  | nil => rfl
  | cons pg tl ih => simp [runTrace, step, ih]

/-- A truthy `window.gtag` that is not a function is no provider entry point: the call
expression raises a TypeError and no provider receives a call. -/
theorem invoke_notCallable (c : Call) :
    invoke Global.notCallable c = ⟨[], some JSError.TypeError⟩ := rfl

/-! ## Claims -/

/-- C1: with `enabled = false`, whatever the identifier, the domain, the state of the
provider globals and the arguments, each of the six facade operations issues no call
to `window.gtag` and no call to `window.plausible`. -/
theorem disabled_issues_no_calls (cfg : Config) (env : Env) (op : Op)
    (h : cfg.ENABLED = false) : (op.run cfg env).calls = [] := by
  apply List.eq_nil_iff_forall_not_mem.2
  intro c hc
  have := (mem_calls_gated cfg env op c hc).1
  rw [h] at this
  cases this

theorem disabled_issues_no_calls_witness :
    disabledConfig.ENABLED = false ∧
      (Op.run disabledConfig (some homeWindow) (Op.trackButtonClick "signup" none)).calls = [] :=
  ⟨rfl, disabled_issues_no_calls disabledConfig (some homeWindow) _ rfl⟩

/-- C2: for every settings record, environment and facade operation, a call to
`window.gtag` is issued only if the measurement identifier is present, non-empty and
not the placeholder and `window.gtag` is present (truthy, and indeed a function); a call
to `window.plausible` is issued only if the domain is present and non-empty and
`window.plausible` is present. -/
theorem provider_called_only_if_configured_and_present (cfg : Config) (env : Env) (op : Op)
    (c : Call) (h : c ∈ (op.run cfg env).calls) :
    (c.isGtag = true →
      (∃ id, cfg.GA4_MEASUREMENT_ID = some id ∧ id ≠ "" ∧ id ≠ "G-XXXXXXXXXX") ∧
      (∃ w, env = some w ∧ w.gtag.truthy = true ∧ w.gtag.isFunction = true)) ∧
    (c.isPlausible = true →
      (∃ d, cfg.PLAUSIBLE_DOMAIN = some d ∧ d ≠ "") ∧
      (∃ w, env = some w ∧ w.plausibleFn.truthy = true ∧ w.plausibleFn.isFunction = true)) := by
  obtain ⟨_, hg, hp⟩ := mem_calls_gated cfg env op c h
  refine ⟨fun k => ?_, fun k => ?_⟩
  · obtain ⟨w, hw, hf⟩ := (windowGtag_isFunction_iff env).1 (hg k).2
    exact ⟨(primaryConfigured_iff cfg).1 (hg k).1, w, hw, truthy_of_isFunction hf, hf⟩
  · obtain ⟨w, hw, hf⟩ := (windowPlausible_isFunction_iff env).1 (hp k).2
    exact ⟨(secondaryConfigured_iff cfg).1 (hp k).1, w, hw, truthy_of_isFunction hf, hf⟩

theorem provider_called_only_if_configured_and_present_witness :
    downloadCall ∈ (Op.run bothConfig (some homeWindow) (Op.trackDownload "cv.pdf")).calls ∧
      ((∃ id, bothConfig.GA4_MEASUREMENT_ID = some id ∧ id ≠ "" ∧ id ≠ "G-XXXXXXXXXX") ∧
        (∃ w, some homeWindow = some w ∧ w.gtag.truthy = true ∧ w.gtag.isFunction = true)) :=
  ⟨by decide,
    (provider_called_only_if_configured_and_present bothConfig (some homeWindow)
      (Op.trackDownload "cv.pdf") downloadCall (by decide)).1 rfl⟩

/-- C3 (the code departs from the claim): in a context where `window` is undeclared,
`trackButtonClick` with an empty or omitted location raises a ReferenceError, under
every settings record, tracking disabled included; no call is issued. A declared
`window` without `location` makes it raise a TypeError in the same way. -/
theorem trackButtonClick_throws_without_window (cfg : Config) (b : String) :
    trackButtonClick cfg none b (some "") = ⟨[], some JSError.ReferenceError⟩ ∧
    trackButtonClick cfg none b none = ⟨[], some JSError.ReferenceError⟩ ∧
    (∀ g pl : Global,
      trackButtonClick cfg (some ⟨g, pl, none⟩) b none = ⟨[], some JSError.TypeError⟩) :=
  ⟨rfl, rfl, fun _ _ => rfl⟩

/-- The part of C3 that the code satisfies: when both provider globals are missing,
every facade operation returns normally and issues no call, except a
`trackButtonClick` that has to read the page path where `window.location` cannot be
read. -/
theorem missing_globals_noop (cfg : Config) (env : Env) (op : Op)
    (hg : windowGtag env = Global.absent) (hp : windowPlausible env = Global.absent)
    (hop : ∀ b l, op = Op.trackButtonClick b l → l.getD "" = "" →
      ∃ w loc, env = some w ∧ w.location = some loc) :
    op.run cfg env = Outcome.ok [] := by
  have ev : ∀ n ps, trackEvent cfg env n ps = Outcome.ok [] := by
    intro n ps
    rw [trackEvent_eq]
    simp [gtagStep, plausibleStep, hg, hp, Global.truthy, Outcome.andThen, Outcome.ok]
  cases op with
  | initGA4 =>
    simp only [Op.run]
    rw [initGA4_eq]
    simp [hg, Global.truthy]
  | trackPageView path =>
    simp only [Op.run]
    rw [trackPageView_eq]
    simp [gtagStep, plausibleStep, hg, hp, Global.truthy, Outcome.andThen, Outcome.ok]
  | trackEvent n ps => exact ev n ps
  | trackButtonClick b l =>
    simp only [Op.run, trackButtonClick]
    by_cases hl : l.getD "" = ""
    · obtain ⟨w, loc, hw, hloc⟩ := hop b l rfl hl
      subst hw
      simp only [hl, bne_self_eq_false, Bool.false_eq_true, if_false, hloc]
      exact ev _ _
    · have : (l.getD "" != "") = true := by simpa using hl
      simp only [this, if_true]
      exact ev _ _
  | trackDownload f => exact ev _ _
  | trackExternalLink u => exact ev _ _

/-- C4: with tracking enabled, a measurement identifier `id` that is non-empty and not
the placeholder, `window.gtag` present as a function and current document path `p`,
`initGA4()` issues exactly one call, `gtag("config", id, page_path p)`, and none to the
secondary provider; `trackPageView(q)` issues exactly one call to the primary provider,
`gtag("config", id, page_path q)`. Each returns normally exactly when no provider
statement it runs raises. -/
theorem init_and_pageview_config_call (cfg : Config) (g pl : Global) (p s id : String)
    (hE : cfg.ENABLED = true) (hid : cfg.GA4_MEASUREMENT_ID = some id)
    (hne : id ≠ "") (hph : id ≠ "G-XXXXXXXXXX") (hg : g.isFunction = true) :
    (initGA4 cfg (some ⟨g, pl, some ⟨p, s⟩⟩)).calls
        = [Call.gtag "config" id [("page_path", Prim.str p)]] ∧
    ((initGA4 cfg (some ⟨g, pl, some ⟨p, s⟩⟩)).threw = none ↔ g = Global.returns) ∧
    ∀ q : String,
      (trackPageView cfg (some ⟨g, pl, some ⟨p, s⟩⟩) q).calls.filter Call.isGtag
          = [Call.gtag "config" id [("page_path", Prim.str q)]] ∧
      ((trackPageView cfg (some ⟨g, pl, some ⟨p, s⟩⟩) q).threw = none
          ↔ g = Global.returns ∧ ¬ SecondaryFails cfg (some ⟨g, pl, some ⟨p, s⟩⟩)) := by
  have hP : PrimaryConfigured cfg := (primaryConfigured_iff cfg).2 ⟨id, hid, hne, hph⟩
  have hT : g.truthy = true := truthy_of_isFunction hg
  have hi : initGA4 cfg (some ⟨g, pl, some ⟨p, s⟩⟩)
      = invoke g (Call.gtag "config" id [("page_path", Prim.str p)]) := by
    rw [initGA4_eq, if_pos ⟨hE, hP, hT⟩, hid]
    rfl
  have hF : PrimaryFails cfg (some ⟨g, pl, some ⟨p, s⟩⟩) ↔ ¬ g = Global.returns := by
    simp [PrimaryFails, hP, windowGtag, hT]
  refine ⟨?_, ?_, fun q => ⟨?_, ?_⟩⟩
  · rw [hi, invoke_calls, if_pos hg]
  · rw [hi, invoke_threw_none_iff]
  · rw [trackPageView_eq, if_pos hE, steps_calls, filter_isGtag_emitted, if_pos ⟨hP, hg⟩, hid]
    rfl
  · rw [trackPageView_eq, if_pos hE, steps_threw, hF, not_not]

theorem init_and_pageview_config_call_witness :
    (initGA4 sampleConfig (some homeWindow)).calls
        = [Call.gtag "config" "G-ABC123" [("page_path", Prim.str "/home")]] ∧
    (trackPageView sampleConfig (some homeWindow) "/home").calls.filter Call.isGtag
        = [Call.gtag "config" "G-ABC123" [("page_path", Prim.str "/home")]] :=
  ⟨(init_and_pageview_config_call sampleConfig Global.returns Global.returns "/home" ""
      "G-ABC123" rfl rfl (by decide) (by decide) rfl).1,
   ((init_and_pageview_config_call sampleConfig Global.returns Global.returns "/home" ""
      "G-ABC123" rfl rfl (by decide) (by decide) rfl).2.2 "/home").1⟩

/-- C5 as stated fails: with both providers configured, `window.plausible` present and
`window.gtag` present as a function that throws, `trackPageView("/home")` issues the
primary call, raises, and never reaches the secondary provider. -/
theorem trackPageView_independence_counterexample :
    trackPageView bothConfig (some throwingWindow) "/home"
        = ⟨[Call.gtag "config" "G-ABC123" [("page_path", Prim.str "/home")]],
            some JSError.ProviderError⟩ ∧
    ¬ ((trackPageView bothConfig (some throwingWindow) "/home").calls.filter Call.isPlausible
          = [Call.plausibleCall "pageview" [("path", Prim.str "/home")]]
        ↔ (∃ d, bothConfig.PLAUSIBLE_DOMAIN = some d ∧ d ≠ "") ∧
          (∃ w, some throwingWindow = some w ∧ w.plausibleFn.truthy = true)) := by
  refine ⟨by decide, fun h => ?_⟩
  have := h.2 ⟨⟨"example.com", rfl, by decide⟩, throwingWindow, rfl, rfl⟩
  revert this
  decide

/-- C5 (amended): with tracking enabled, `trackPageView(path)` issues exactly one call
`plausible("pageview", props path)` if and only if the secondary domain is non-empty,
`window.plausible` is a function and the statement calling the primary provider did
not raise; otherwise it issues none. So, as long as `window.gtag` is absent or a
function that returns normally, the secondary call does not depend on the identifier
or on `window.gtag`. The calls that the primary provider receives never depend on the
secondary domain or on what `window.plausible` holds. -/
theorem trackPageView_secondary_call (cfg : Config) (env : Env) (path : String)
    (hE : cfg.ENABLED = true) :
    ((trackPageView cfg env path).calls.filter Call.isPlausible
          = [Call.plausibleCall "pageview" [("path", Prim.str path)]]
        ↔ (∃ d, cfg.PLAUSIBLE_DOMAIN = some d ∧ d ≠ "") ∧
          (∃ w, env = some w ∧ w.plausibleFn.isFunction = true) ∧
          ¬ PrimaryFails cfg env) ∧
    ((trackPageView cfg env path).calls.filter Call.isPlausible = []
        ↔ ¬ ((∃ d, cfg.PLAUSIBLE_DOMAIN = some d ∧ d ≠ "") ∧
          (∃ w, env = some w ∧ w.plausibleFn.isFunction = true) ∧
          ¬ PrimaryFails cfg env)) ∧
    ((windowGtag env).wellBehaved = true →
      ((trackPageView cfg env path).calls.filter Call.isPlausible
          = [Call.plausibleCall "pageview" [("path", Prim.str path)]]
        ↔ (∃ d, cfg.PLAUSIBLE_DOMAIN = some d ∧ d ≠ "") ∧
          (∃ w, env = some w ∧ w.plausibleFn.isFunction = true))) ∧
    (∀ (d2 : Option String) (p2 : Global),
      (trackPageView ⟨cfg.GA4_MEASUREMENT_ID, d2, cfg.ENABLED⟩
          (env.map fun w => ⟨w.gtag, p2, w.location⟩) path).calls.filter Call.isGtag
        = (trackPageView cfg env path).calls.filter Call.isGtag) := by
  have e1 : (trackPageView cfg env path).calls.filter Call.isPlausible
      = if ¬ PrimaryFails cfg env ∧ SecondaryConfigured cfg
            ∧ (windowPlausible env).isFunction = true
          then [Call.plausibleCall "pageview" [("path", Prim.str path)]] else [] := by
    rw [trackPageView_eq, if_pos hE, steps_calls, filter_isPlausible_emitted]
  have e2 : ∀ (c : Config) (e : Env), c.ENABLED = true →
      (trackPageView c e path).calls.filter Call.isGtag
        = if PrimaryConfigured c ∧ (windowGtag e).isFunction = true
          then [Call.gtag "config" (c.GA4_MEASUREMENT_ID.getD "") [("page_path", Prim.str path)]]
          else [] := by
    intro c e h
    rw [trackPageView_eq, if_pos h, steps_calls, filter_isGtag_emitted]
  have hiff : (¬ PrimaryFails cfg env ∧ SecondaryConfigured cfg
        ∧ (windowPlausible env).isFunction = true)
      ↔ ((∃ d, cfg.PLAUSIBLE_DOMAIN = some d ∧ d ≠ "") ∧
          (∃ w, env = some w ∧ w.plausibleFn.isFunction = true) ∧
          ¬ PrimaryFails cfg env) := by
    rw [secondaryConfigured_iff, windowPlausible_isFunction_iff]
    constructor
    · rintro ⟨a, b, c⟩; exact ⟨b, c, a⟩
    · rintro ⟨b, c, a⟩; exact ⟨a, b, c⟩
  have one : (trackPageView cfg env path).calls.filter Call.isPlausible
          = [Call.plausibleCall "pageview" [("path", Prim.str path)]]
        ↔ (∃ d, cfg.PLAUSIBLE_DOMAIN = some d ∧ d ≠ "") ∧
          (∃ w, env = some w ∧ w.plausibleFn.isFunction = true) ∧
          ¬ PrimaryFails cfg env := by
    rw [e1, ← hiff]
    split <;> simp_all
  refine ⟨one, ?_, ?_, ?_⟩
  · rw [e1, ← hiff]
    split <;> simp_all
  · intro hw
    have nf : ¬ PrimaryFails cfg env := by
      intro k
      have h3 := k.2.2
      have h2 := k.2.1
      revert hw h2 h3
      generalize windowGtag env = x
      cases x <;> simp [Global.wellBehaved, Global.truthy]
    rw [one]
    constructor
    · rintro ⟨a, b, _⟩; exact ⟨a, b⟩
    · rintro ⟨a, b⟩; exact ⟨a, b, nf⟩
  · intro d2 p2
    rw [e2 cfg env hE, e2 ⟨cfg.GA4_MEASUREMENT_ID, d2, cfg.ENABLED⟩ _ hE]
    cases env <;> rfl

theorem trackPageView_secondary_call_witness :
    (trackPageView bothConfig (some homeWindow) "/about").calls.filter Call.isPlausible
      = [Call.plausibleCall "pageview" [("path", Prim.str "/about")]] :=
  (trackPageView_secondary_call bothConfig (some homeWindow) "/about" rfl).1.2
    ⟨⟨"example.com", rfl, by decide⟩, ⟨homeWindow, rfl, rfl⟩, by decide⟩

/-- C6 as stated fails: with both providers configured, `window.plausible` present and
`window.gtag` present as a function that throws, `trackEvent` issues the primary call
only and raises, where the claim promises the primary call followed by the secondary
one. -/
theorem trackEvent_emits_counterexample :
    trackEvent bothConfig (some throwingWindow) "signup" (some [("plan", Prim.str "pro")])
        = ⟨[Call.gtag "event" "signup" [("plan", Prim.str "pro")]],
            some JSError.ProviderError⟩ ∧
    promised bothConfig (some throwingWindow)
        (Call.gtag "event" "signup" [("plan", Prim.str "pro")])
        (Call.plausibleCall "signup" [("plan", Prim.str "pro")])
      = [Call.gtag "event" "signup" [("plan", Prim.str "pro")],
          Call.plausibleCall "signup" [("plan", Prim.str "pro")]] ∧
    (trackEvent bothConfig (some throwingWindow) "signup"
        (some [("plan", Prim.str "pro")])).calls
      ≠ promised bothConfig (some throwingWindow)
          (Call.gtag "event" "signup" [("plan", Prim.str "pro")])
          (Call.plausibleCall "signup" [("plan", Prim.str "pro")]) := by
  decide

/-- C6 (amended): with tracking enabled, `trackEvent(n, ps)` emits exactly, in this
order: `gtag("event", n, ps)` if and only if the measurement identifier is configured
and `window.gtag` is a function; then `plausible(n, props ps)` if and only if the
statement calling the primary provider did not raise, the secondary domain is
non-empty and `window.plausible` is a function. It returns normally exactly when
neither provider statement raises. The bag is passed unchanged to both, and an
omitted second argument is the empty bag. When each provider global is absent or a
function that returns normally, these are the calls of the original claim and the
operation returns normally. -/
theorem trackEvent_emits (cfg : Config) (env : Env) (n : String) (ps : Params)
    (hE : cfg.ENABLED = true) :
    (trackEvent cfg env n (some ps)).calls =
      (if PrimaryConfigured cfg ∧ (windowGtag env).isFunction = true
          then [Call.gtag "event" n ps] else [])
        ++ (if ¬ PrimaryFails cfg env ∧ SecondaryConfigured cfg
              ∧ (windowPlausible env).isFunction = true
          then [Call.plausibleCall n ps] else []) ∧
    ((trackEvent cfg env n (some ps)).threw = none
        ↔ ¬ PrimaryFails cfg env ∧ ¬ SecondaryFails cfg env) ∧
    trackEvent cfg env n none = trackEvent cfg env n (some []) ∧
    ((windowGtag env).wellBehaved = true → (windowPlausible env).wellBehaved = true →
      trackEvent cfg env n (some ps) =
        ⟨promised cfg env (Call.gtag "event" n ps) (Call.plausibleCall n ps), none⟩) := by
  have hc : (trackEvent cfg env n (some ps)).calls
      = emitted cfg env (Call.gtag "event" n ps) (Call.plausibleCall n ps) := by
    rw [trackEvent_eq, if_pos hE, steps_calls]
    rfl
  have ht : (trackEvent cfg env n (some ps)).threw = none
        ↔ ¬ PrimaryFails cfg env ∧ ¬ SecondaryFails cfg env := by
    rw [trackEvent_eq, if_pos hE, steps_threw]
  refine ⟨hc, ht, rfl, fun hg hp => ?_⟩
  obtain ⟨h1, h2, h3⟩ := emitted_eq_promised cfg env (Call.gtag "event" n ps)
    (Call.plausibleCall n ps) hg hp
  have t := ht.2 ⟨h2, h3⟩
  rw [h1] at hc
  rcases hq : trackEvent cfg env n (some ps) with ⟨cs, th⟩
  rw [hq] at hc t
  simp only at hc t
  rw [hc, t]

theorem trackEvent_emits_witness :
    trackEvent bothConfig (some homeWindow) "signup" (some [("plan", Prim.str "pro")]) =
      ⟨[Call.gtag "event" "signup" [("plan", Prim.str "pro")],
        Call.plausibleCall "signup" [("plan", Prim.str "pro")]], none⟩ :=
  ((trackEvent_emits bothConfig (some homeWindow) "signup" [("plan", Prim.str "pro")]
    rfl).2.2.2 rfl rfl).trans (by decide)

/-- C7: in a browser with current page path `p`, `trackButtonClick(b, l)` behaves exactly
as `trackEvent("button_click", bag)` where the bag has the two fields `button_name = b`
and `location`, the latter being `p` when `l` is empty or omitted and `l` otherwise; so
with tracking enabled its calls are those that `trackEvent` emits for that bag.
In the scenario of the specification, `trackButtonClick("signup", "")` on path /pricing
emits `button_click` with `button_name = "signup"` and `location = "/pricing"`. -/
theorem trackButtonClick_is_trackEvent (cfg : Config) (g pl : Global) (p s b : String)
    (l : Option String) :
    trackButtonClick cfg (some ⟨g, pl, some ⟨p, s⟩⟩) b l =
      trackEvent cfg (some ⟨g, pl, some ⟨p, s⟩⟩) "button_click"
        (some [("button_name", Prim.str b),
          ("location", Prim.str
            (match l with
              | none => p
              | some x => if x = "" then p else x))]) ∧
    (trackButtonClick cfg (some ⟨g, pl, some ⟨p, s⟩⟩) b l).calls =
      (if cfg.ENABLED = true then
        emitted cfg (some ⟨g, pl, some ⟨p, s⟩⟩)
          (Call.gtag "event" "button_click"
            [("button_name", Prim.str b),
              ("location", Prim.str
                (match l with
                  | none => p
                  | some x => if x = "" then p else x))])
          (Call.plausibleCall "button_click"
            [("button_name", Prim.str b),
              ("location", Prim.str
                (match l with
                  | none => p
                  | some x => if x = "" then p else x))])
      else []) ∧
    trackButtonClick sampleConfig (some pricingWindow) "signup" (some "") =
      ⟨[Call.gtag "event" "button_click"
          [("button_name", Prim.str "signup"), ("location", Prim.str "/pricing")]], none⟩ := by
  have key : trackButtonClick cfg (some ⟨g, pl, some ⟨p, s⟩⟩) b l =
      trackEvent cfg (some ⟨g, pl, some ⟨p, s⟩⟩) "button_click"
        (some [("button_name", Prim.str b),
          ("location", Prim.str
            (match l with
              | none => p
              | some x => if x = "" then p else x))]) := by
    rcases l with _ | x
    · rfl
    · by_cases h : x = ""
      · subst h; rfl
      · have : (x != "") = true := by simpa using h
        simp [trackButtonClick, this, h]
  refine ⟨key, ?_, by decide⟩
  rw [key, trackEvent_eq]
  by_cases hE : cfg.ENABLED = true
  · rw [if_pos hE, if_pos hE, steps_calls]
    rfl
  · rw [if_neg hE, if_neg hE]
    rfl

/-- C8: for a lifecycle trace made of one mount, notifications, unmount and further
notifications, the facade calls are exactly: `initGA4()` then
`trackPageView(pathname + search)` on mount; one `trackPageView(pathname)` for each
notification received while bound with visibility state "visible"; nothing for the
other notifications and nothing after unmount. So a single transition to visible
yields one page view beyond the mount-time one. -/
theorem lifecycle_facade_calls (pg0 : Page) (during after : List Page) :
    runTrace Document.fresh (lifecycle pg0 during after)
      = [Op.initGA4, Op.trackPageView (pg0.pathname ++ pg0.search)]
          ++ (during.filter fun pg => pg.visibilityState == "visible").map
              (fun pg => Op.trackPageView pg.pathname) ∧
    (∀ p s : String,
      runTrace Document.fresh (lifecycle pg0 [⟨p, s, "visible"⟩] after)
        = [Op.initGA4, Op.trackPageView (pg0.pathname ++ pg0.search), Op.trackPageView p]) := by
  have main : ∀ d : List Page, runTrace Document.fresh (lifecycle pg0 d after)
      = [Op.initGA4, Op.trackPageView (pg0.pathname ++ pg0.search)]
          ++ (d.filter fun pg => pg.visibilityState == "visible").map
              (fun pg => Op.trackPageView pg.pathname) := by
    intro d
    have hm : (step Document.fresh (LifecycleEvent.mount pg0)).1
        = ⟨[Listener.handleVisibilityChange]⟩ := rfl
    have hu : (step ⟨[Listener.handleVisibilityChange]⟩ LifecycleEvent.unmount).1
        = ⟨[]⟩ := by decide
    unfold lifecycle
    rw [List.cons_append, runTrace_cons, hm, runTrace_bound, runTrace_cons, hu,
      runTrace_unbound]
    simp [step, effect]
  refine ⟨main during, fun p s => ?_⟩
  rw [main]
  rfl

/-- C9: the resolver is total and maps every triple of environment values to the
settings record with: `ENABLED` false exactly when the toggle is the string "false";
the identifier equal to the environment value when present and non-empty and to the
placeholder otherwise; the domain equal to the environment value when present and to
the empty string otherwise. -/
theorem resolver_contract (pe : ProcessEnv) :
    ((ANALYTICS_CONFIG pe).ENABLED = false ↔ pe.REACT_APP_ANALYTICS_ENABLED = some "false") ∧
    ((ANALYTICS_CONFIG pe).ENABLED = true ↔ pe.REACT_APP_ANALYTICS_ENABLED ≠ some "false") ∧
    (ANALYTICS_CONFIG pe).GA4_MEASUREMENT_ID =
      some (match pe.REACT_APP_GA4_MEASUREMENT_ID with
        | none => "G-XXXXXXXXXX"
        | some s => if s = "" then "G-XXXXXXXXXX" else s) ∧
    (ANALYTICS_CONFIG pe).PLAUSIBLE_DOMAIN =
      some (match pe.REACT_APP_PLAUSIBLE_DOMAIN with
        | none => ""
        | some s => s) := by
  rcases pe with ⟨i, d, e⟩
  refine ⟨by simp [ANALYTICS_CONFIG], by simp [ANALYTICS_CONFIG], ?_, ?_⟩
  · rcases i with _ | s
    · rfl
    · by_cases h : s = "" <;> simp [ANALYTICS_CONFIG, orElse, PLACEHOLDER, h]
  · rcases d with _ | s
    · rfl
    · by_cases h : s = "" <;> simp [ANALYTICS_CONFIG, orElse, h]

/-- C10: `trackDownload(f)` produces exactly the outcome of
`trackEvent("file_download", file_name f)` and `trackExternalLink(u)` exactly the outcome
of `trackEvent("external_link_click", link_url u)`, under every settings record and
environment; neither outcome depends on the current page path. -/
theorem download_and_link_refine_trackEvent (cfg : Config) (env : Env) (f u : String) :
    trackDownload cfg env f
      = trackEvent cfg env "file_download" (some [("file_name", Prim.str f)]) ∧
    trackExternalLink cfg env u
      = trackEvent cfg env "external_link_click" (some [("link_url", Prim.str u)]) ∧
    (∀ (g pl : Global) (loc loc2 : Option Location),
      trackDownload cfg (some ⟨g, pl, loc⟩) f = trackDownload cfg (some ⟨g, pl, loc2⟩) f ∧
      trackExternalLink cfg (some ⟨g, pl, loc⟩) u
        = trackExternalLink cfg (some ⟨g, pl, loc2⟩) u) := by
  refine ⟨rfl, rfl, fun g pl loc loc2 => ⟨rfl, rfl⟩⟩

end Analytics
